import Mathlib

/-!
Shallow embedding of the email-verification / pending-registration core of
the SwapSavvy web application (src/app/services/user_service.py,
src/app/routes/auth.py, src/app/models.py).

Times (`datetime.utcnow()` values) are modelled as natural numbers counting
seconds; `timedelta(minutes=10)` is 600, `timedelta(hours=24)` is 86400, and
the resend window `3600` seconds.  Randomness (`random.randint`) is passed in
as an explicit parameter.  The relational store is a record of lists of rows;
row ids are assigned by a deterministic fresh-id function standing in for the
database's autoincrement.
-/

namespace SwapSavvy

/-- Row of the `users` table (`app/models.py`, class `User`), restricted to the
columns that the verification core reads or writes. -/
structure User where
  id : Nat
  assigned_id : String
  username : String
  email : String
  password_hash : String
  name : String
  gender : String
  avatar : String
  is_verified : Bool
deriving Repr, DecidableEq

/-- Row of the `pending_users` table (`app/models.py`, class `PendingUser`). -/
structure PendingUser where
  id : Nat
  assigned_id : String
  username : String
  email : String
  password_hash : String
  name : String
  gender : String
  avatar : String
  created_at : Nat
  expires_at : Nat
  status : String
deriving Repr, DecidableEq

/-- Row of the `email_verifications` table (`app/models.py`, class
`EmailVerification`).  Both foreign keys are nullable, as in the schema. -/
structure EmailVerification where
  id : Nat
  user_id : Option Nat
  pending_user_id : Option Nat
  code : String
  attempts : Nat
  resend_count : Nat
  last_sent_at : Nat
  created_at : Nat
  expires_at : Nat
deriving Repr, DecidableEq

/-- `EmailVerification.is_expired`: `datetime.utcnow() > self.expires_at`. -/
def EmailVerification.is_expired (v : EmailVerification) (now : Nat) : Bool :=
  v.expires_at < now

/-- `PendingUser.to_user` (`app/models.py`): build a `User` from the pending
row's stored fields with `is_verified=True`.  The database assigns the new
row's surrogate id, passed here explicitly. -/
def PendingUser.to_user (p : PendingUser) (newId : Nat) : User :=
  { id := newId
    assigned_id := p.assigned_id
    username := p.username
    email := p.email
    password_hash := p.password_hash
    name := p.name
    gender := p.gender
    avatar := p.avatar
    is_verified := true }

/-- The relational store: the three tables the verification core touches. -/
structure Store where
  users : List User
  pending_users : List PendingUser
  verifications : List EmailVerification
deriving Repr, DecidableEq

/-- Autoincrement stand-in: one more than the largest existing `users` id. -/
def freshUserId (st : Store) : Nat :=
  (st.users.map (fun u => u.id)).foldl max 0 + 1

/-- Autoincrement stand-in for `email_verifications` ids. -/
def freshVerificationId (st : Store) : Nat :=
  (st.verifications.map (fun v => v.id)).foldl max 0 + 1

/-- Autoincrement stand-in for `pending_users` ids. -/
def freshPendingId (st : Store) : Nat :=
  (st.pending_users.map (fun p => p.id)).foldl max 0 + 1

/-- `PendingUser.query.get(pending_id)`: primary-key lookup. -/
def getPendingUser (st : Store) (pid : Nat) : Option PendingUser :=
  st.pending_users.find? (fun p => p.id = pid)

/-- `EmailVerification.query.filter_by(pending_user_id=id)
       .order_by(EmailVerification.created_at.desc()).first()`:
the most recently created verification row for a pending target. -/
def latestVerification (st : Store) (pid : Nat) : Option EmailVerification :=
  (st.verifications.filter (fun v => v.pending_user_id = some pid)).foldl
    (fun acc v =>
      match acc with
      | none => some v
      | some w => if w.created_at < v.created_at then some v else some w)
    none

/-- Persist a mutated `EmailVerification` row (ORM attribute update +
`db.session.commit()`): replace the row with the same id. -/
def updateVerification (st : Store) (v' : EmailVerification) : Store :=
  { st with verifications :=
      st.verifications.map (fun v => if v.id = v'.id then v' else v) }

/-- `db.session.delete(verification)`: remove one verification row by id. -/
def deleteVerification (st : Store) (vid : Nat) : Store :=
  { st with verifications := st.verifications.filter (fun v => v.id ≠ vid) }

/-- `db.session.delete(pending)`: remove a pending row.  The
`PendingUser.verifications` backref carries `cascade='all, delete-orphan'`
(`app/models.py`), so deleting the pending row also deletes every
verification row keyed to it. -/
def deletePendingCascade (st : Store) (pid : Nat) : Store :=
  { st with
      pending_users := st.pending_users.filter (fun p => p.id ≠ pid)
      verifications :=
        st.verifications.filter (fun v => v.pending_user_id ≠ some pid) }

/-- `UserService.verify_pending_user(pending_id, code)`
(`app/services/user_service.py`).  Returns the post-transaction store
together with the Python function's `(user_or_None, message)` pair. -/
def verify_pending_user (st : Store) (now : Nat) (pending_id : Nat)
    (code : String) : Store × Option User × String :=
  match getPendingUser st pending_id with
  | none => (st, none, "Invalid session")
  | some pending =>
    match latestVerification st pending.id with
    | none => (st, none, "Verification code expired")
    | some verification =>
      if verification.is_expired now then
        (st, none, "Verification code expired")
      else if 5 ≤ verification.attempts then
        (st, none, "Too many attempts")
      else if verification.code ≠ code then
        (updateVerification st { verification with
            attempts := verification.attempts + 1 },
         none, "Invalid verification code")
      else if st.users.any (fun u => u.email = pending.email)
           || st.users.any (fun u => u.username = pending.username) then
        let st1 := deleteVerification st verification.id
        let expirePending := fun (p : PendingUser) =>
          if p.id = pending.id then { p with status := "expired" } else p
        let st2 := { st1 with pending_users := st1.pending_users.map expirePending }
        (st2, none, "User already exists")
      else
        let user := pending.to_user (freshUserId st)
        let st1 := { st with users := st.users ++ [user] }
        let st2 := deleteVerification st1 verification.id
        let st3 := deletePendingCascade st2 pending.id
        (st3, some user, "Success")

/-- Zero-padded decimal rendering of the random draw, as in
`f"{random.randint(0, 999999):06d}"`. -/
def to6digit (n : Nat) : String :=
  let s := toString n
  String.mk (List.replicate (6 - s.length) '0') ++ s

/-- `UserService.create_verification_code(pending_user_id)`
(`app/services/user_service.py`).  `codeNum` is the value drawn by
`random.randint(0, 999999)`.  The function deletes every existing
verification row for the target, inserts a fresh one expiring in 10
minutes, and returns the plaintext code.  It performs no check that the
pending row exists. -/
def create_verification_code (st : Store) (now : Nat) (codeNum : Nat)
    (pending_user_id : Nat) : Store × String :=
  let code := to6digit codeNum
  let expires_at := now + 600
  let st1 := { st with verifications :=
      st.verifications.filter (fun v => v.pending_user_id ≠ some pending_user_id) }
  let v : EmailVerification :=
    { id := freshVerificationId st1
      user_id := none
      pending_user_id := some pending_user_id
      code := code
      attempts := 0
      resend_count := 0
      last_sent_at := now
      created_at := now
      expires_at := expires_at }
  ({ st1 with verifications := st1.verifications ++ [v] }, code)

/-- The post-validation tail of the `signup` POST handler
(`app/routes/auth.py`): create the pending user
(`UserService.create_pending_user`, with the generated `assigned_id`, the
default avatar and the password hash passed in for the parts produced by
randomness and hashing), issue the first verification code, dispatch the
email (`emailOk` is `EmailService.send_verification_email`'s boolean
result), and on dispatch failure delete the pending row (cascading to its
verification rows) before returning.  The returned `Bool` is whether signup
succeeded. -/
def signup_core (st : Store) (now : Nat) (assigned_id : String)
    (username email password_hash name gender avatar : String)
    (codeNum : Nat) (emailOk : Bool) : Store × Bool :=
  let pending : PendingUser :=
    { id := freshPendingId st
      assigned_id := assigned_id
      username := username
      email := email
      password_hash := password_hash
      name := name
      gender := gender
      avatar := avatar
      created_at := now
      expires_at := now + 86400
      status := "pending" }
  let st1 := { st with pending_users := st.pending_users ++ [pending] }
  let st2 := (create_verification_code st1 now codeNum pending.id).1
  if emailOk then (st2, true)
  else (deletePendingCascade st2 pending.id, false)

/-- Key of the process-local `recent_resends` dict for a pending id:
`f"resend_pending_{pending.id}"`. -/
def resendKey (pid : Nat) : String :=
  "resend_pending_" ++ toString pid

/-- Lookup `recent_resends[key]` in the dict, modelled as an association
list of `(key, (last_resend, count))`. -/
def lookupResend : List (String × Nat × Nat) → String → Option (Nat × Nat)
  | [], _ => none
  | e :: t, k => if e.1 = k then some e.2 else lookupResend t k

/-- Assignment `recent_resends[key] = value`: replace the entry for the key,
or append a fresh one. -/
def setResend : List (String × Nat × Nat) → String → Nat × Nat →
    List (String × Nat × Nat)
  | [], k, v => [(k, v)]
  | e :: t, k, v => if e.1 = k then (k, v) :: t else e :: setResend t k v

/-- Process state for the resend route: the relational store plus the
module-level in-memory `recent_resends` dict of `app/routes/auth.py`. -/
structure AppState where
  store : Store
  recent_resends : List (String × Nat × Nat)
deriving Repr, DecidableEq

/-- Outcome of the `resend_code` route, as the user-visible branch taken. -/
inductive ResendOutcome where
  | invalidSession
  | tooManyResends
  | sent (emailOk : Bool)
deriving Repr, DecidableEq

/-- The `resend_code` POST handler (`app/routes/auth.py`), starting from the
session's pending id.  The throttle check reads `recent_resends[key]` and
rejects when the last resend is under 3600 seconds old and the count is at
least 3; otherwise it issues a new code via
`UserService.create_verification_code` and then writes the throttle entry
back with the timestamp refreshed and the count incremented (or initialized
to 1).  `emailOk` is the email dispatcher's boolean result, which only
selects the flash message. -/
def resend_code (a : AppState) (now : Nat) (codeNum : Nat) (emailOk : Bool)
    (pid : Nat) : AppState × ResendOutcome :=
  match getPendingUser a.store pid with
  | none => (a, .invalidSession)
  | some pending =>
    let key := resendKey pending.id
    match lookupResend a.recent_resends key with
    | some (last, count) =>
      if now - last < 3600 && 3 ≤ count then
        (a, .tooManyResends)
      else
        let st' := (create_verification_code a.store now codeNum pending.id).1
        ({ store := st'
           recent_resends := setResend a.recent_resends key (now, count + 1) },
         .sent emailOk)
    | none =>
      let st' := (create_verification_code a.store now codeNum pending.id).1
      ({ store := st'
         recent_resends := setResend a.recent_resends key (now, 1) },
       .sent emailOk)

/-- Rewrite one pending row's `status` column, leaving every other column
and every other row alone.  Used to state that the verification flow is
insensitive to the `status` field. -/
def updStatus (pid : Nat) (s : String) (p : PendingUser) : PendingUser :=
  if p.id = pid then { p with status := s } else p

/-- A store identical to `st` except for the `status` of pending row `pid`. -/
def setStatus (st : Store) (pid : Nat) (s : String) : Store :=
  { st with pending_users := st.pending_users.map (updStatus pid s) }

/-- A process state identical to `a` except for one pending row's status. -/
def setStatusA (a : AppState) (pid : Nat) (s : String) : AppState :=
  { a with store := setStatus a.store pid s }

/-- Concrete pending row used by the witnesses. -/
def aliceP : PendingUser :=
  { id := 1
    assigned_id := "ali1234"
    username := "alice"
    email := "alice@x.com"
    password_hash := "hash"
    name := "Alice"
    gender := "female"
    avatar := "avatars/female_default.png"
    created_at := 0
    expires_at := 86400
    status := "pending" }

/-- Concrete verification row used by the witnesses: code `123456`, issued at
time 0, expiring at 600 seconds (10 minutes). -/
def aliceV : EmailVerification :=
  { id := 1
    user_id := none
    pending_user_id := some 1
    code := "123456"
    attempts := 0
    resend_count := 0
    last_sent_at := 0
    created_at := 0
    expires_at := 600 }

/-- Concrete store: one pending signup with one live code and no accounts. -/
def aliceStore : Store :=
  { users := [], pending_users := [aliceP], verifications := [aliceV] }

/-- A conflicting verified account holding alice's username. -/
def aliceTaken : User :=
  { id := 9
    assigned_id := "zz99"
    username := "alice"
    email := "other@x.com"
    password_hash := "hash2"
    name := "Other"
    gender := "other"
    avatar := "avatars/other_default.png"
    is_verified := true }

/-- Alice's verification row with its attempts counter already at 5. -/
def aliceV5 : EmailVerification := { aliceV with attempts := 5 }

/-- Store whose only code row has exhausted its attempts. -/
def aliceStore5 : Store :=
  { users := [], pending_users := [aliceP], verifications := [aliceV5] }

/-- Store in which alice's username is already taken by a verified account. -/
def aliceConflictStore : Store :=
  { users := [aliceTaken], pending_users := [aliceP], verifications := [aliceV] }

/-- Process state at the start of the resend scenarios: alice's pending
signup, an empty throttle dict. -/
def a0 : AppState := { store := aliceStore, recent_resends := [] }

/-- After a resend at time 0. -/
def a1 : AppState := (resend_code a0 0 1 true 1).1

/-- After resends at times 0 and 10. -/
def a2 : AppState := (resend_code a1 10 2 true 1).1

/-- After resends at times 0, 10 and 20: the throttle entry holds count 3. -/
def a3 : AppState := (resend_code a2 20 3 true 1).1

/-- Process state with a throttle entry of three resends recorded at time 0. -/
def aThrottled : AppState :=
  { store := aliceStore, recent_resends := [(resendKey 1, 0, 3)] }

/-! Helper lemmas shared by the claim theorems. -/

/-- Filtering for a key value after filtering it out yields nothing. -/
theorem filter_ne_eq_nil {α β : Type} [DecidableEq β] (f : α → β) (x : β)
    (l : List α) :
    (l.filter (fun a => f a ≠ x)).filter (fun a => f a = x) = [] := by
  induction l with
  | nil => rfl
  | cons a t ih => by_cases h : f a = x <;> simp [List.filter_cons, h, ih]

/-- A found pending row's primary key is the key it was looked up by. -/
theorem getPendingUser_id {st : Store} {pid : Nat} {pending : PendingUser}
    (h : getPendingUser st pid = some pending) : pending.id = pid := by
  have := List.find?_some h
  simpa using this

/-- Rewriting a status never changes a row's primary key. -/
theorem updStatus_id (pid : Nat) (s : String) (p : PendingUser) :
    (updStatus pid s p).id = p.id := by
  unfold updStatus
  split <;> rfl

/-- Primary-key lookup commutes with the status rewrite. -/
theorem getPendingUser_setStatus (st : Store) (pid : Nat) (s : String)
    (pid' : Nat) :
    getPendingUser (setStatus st pid s) pid' =
      (getPendingUser st pid').map (updStatus pid s) := by
  show (st.pending_users.map (updStatus pid s)).find? (fun p => p.id = pid') =
    (st.pending_users.find? (fun p => p.id = pid')).map (updStatus pid s)
  induction st.pending_users with
  | nil => rfl
  | cons p t ih =>
    by_cases h : p.id = pid'
    · simp [List.find?_cons, updStatus_id, h]
    · simp [List.find?_cons, updStatus_id, h, ih]

/-- Shared helper: `create_verification_code` always leaves exactly one
verification row for its target, whatever the prior store contents. -/
theorem create_code_filter_length (st : Store) (now codeNum pid : Nat) :
    ((create_verification_code st now codeNum pid).1.verifications.filter
      (fun v => v.pending_user_id = some pid)).length = 1 := by
  unfold create_verification_code
  simp [List.filter_append, filter_ne_eq_nil]

/-- C4: after `create_verification_code` completes, exactly one verification
row exists for the target pending id, for every prior store state — issuing
twice never leaves two live codes, because all prior codes for the target
are deleted first. -/
theorem issue_code_leaves_exactly_one_code (st : Store)
    (now codeNum pid : Nat) :
    ((create_verification_code st now codeNum pid).1.verifications.filter
      (fun v => v.pending_user_id = some pid)).length = 1 :=
  create_code_filter_length st now codeNum pid

/-- C7: when the verification email dispatch reports failure during signup,
the just-created pending registration and its just-created verification code
are both removed: the resulting store holds no pending row with the new id
and no verification row keyed to it. -/
theorem signup_email_failure_rolls_back (st : Store) (now : Nat)
    (assigned_id username email password_hash name gender avatar : String)
    (codeNum : Nat) :
    (signup_core st now assigned_id username email password_hash name gender
        avatar codeNum false).2 = false ∧
    ((signup_core st now assigned_id username email password_hash name gender
        avatar codeNum false).1.pending_users.filter
      (fun p => p.id = freshPendingId st)) = [] ∧
    ((signup_core st now assigned_id username email password_hash name gender
        avatar codeNum false).1.verifications.filter
      (fun v => v.pending_user_id = some (freshPendingId st))) = [] := by
  unfold signup_core create_verification_code deletePendingCascade
  refine ⟨rfl, ?_, ?_⟩
  · exact filter_ne_eq_nil (fun p : PendingUser => p.id) (freshPendingId st) _
  · exact filter_ne_eq_nil (fun v : EmailVerification => v.pending_user_id)
      (some (freshPendingId st)) _

/-- C9 counterexample: `create_verification_code` called with an id that
refers to no pending registration does not fail — it persists a verification
row for the phantom id and returns the code. -/
theorem create_code_missing_pending_cex :
    getPendingUser { users := [], pending_users := [], verifications := [] }
        42 = none ∧
    ((create_verification_code
        { users := [], pending_users := [], verifications := [] }
        0 123456 42).1.verifications.filter
      (fun v => v.pending_user_id = some 42)).length = 1 ∧
    (create_verification_code
        { users := [], pending_users := [], verifications := [] }
        0 123456 42).2 = "123456" :=
  ⟨rfl, rfl, rfl⟩

/-- C9 amended: `create_verification_code` performs no existence check.
Even when no pending registration with the given id exists, it persists
exactly one verification row for that id and returns the formatted code;
existence is guaranteed only by its callers, which fetch the pending row
first. -/
theorem create_code_no_existence_check (st : Store) (now codeNum pid : Nat)
    (_h : getPendingUser st pid = none) :
    ((create_verification_code st now codeNum pid).1.verifications.filter
      (fun v => v.pending_user_id = some pid)).length = 1 ∧
    (create_verification_code st now codeNum pid).2 = to6digit codeNum := by
  refine ⟨create_code_filter_length st now codeNum pid, rfl⟩

/-- Witness for the amended C9 theorem at a concrete empty store. -/
theorem create_code_no_existence_check_witness :
    ((create_verification_code
        { users := [], pending_users := [], verifications := [] }
        0 5 7).1.verifications.filter
      (fun v => v.pending_user_id = some 7)).length = 1 ∧
    (create_verification_code
        { users := [], pending_users := [], verifications := [] }
        0 5 7).2 = to6digit 5 :=
  create_code_no_existence_check
    { users := [], pending_users := [], verifications := [] } 0 5 7 rfl

/-- Writing a throttle entry makes it the one subsequent lookups see. -/
theorem lookupResend_setResend (m : List (String × Nat × Nat)) (k : String)
    (v : Nat × Nat) : lookupResend (setResend m k v) k = some v := by
  induction m with
  | nil => simp [setResend, lookupResend]
  | cons e t ih => by_cases h : e.1 = k <;> simp [setResend, lookupResend, h, ih]

/-- Issuing a verification code never touches the `pending_users` table. -/
theorem create_code_pending_users (st : Store) (now codeNum pid : Nat) :
    (create_verification_code st now codeNum pid).1.pending_users =
      st.pending_users := rfl

/-- C6: with a throttle entry recording a resend under an hour old and a
count of at least 3, `resend_code` rejects with the too-many-resends branch
and returns the process state untouched: no code is issued, the stored
verification rows are unchanged, and the throttle entry keeps its timestamp
and count. -/
theorem resend_throttled_no_mutation (a : AppState) (now codeNum : Nat)
    (ok : Bool) (pid : Nat) (pending : PendingUser) (last count : Nat)
    (hp : getPendingUser a.store pid = some pending)
    (hr : lookupResend a.recent_resends (resendKey pending.id) =
      some (last, count))
    (hw : now - last < 3600) (hc : 3 ≤ count) :
    resend_code a now codeNum ok pid = (a, ResendOutcome.tooManyResends) := by
  unfold resend_code
  rw [hp]
  simp only [hr]
  rw [if_pos (by simp [hw, hc])]

/-- Witness for C6 at a concrete state: three resends recorded at time 0,
checked at time 10. -/
theorem resend_throttled_no_mutation_witness :
    resend_code { store := aliceStore, recent_resends := [(resendKey 1, 0, 3)] }
        10 7 true 1 =
      ({ store := aliceStore, recent_resends := [(resendKey 1, 0, 3)] },
        ResendOutcome.tooManyResends) :=
  resend_throttled_no_mutation _ 10 7 true 1 aliceP 0 3 rfl rfl
    (by decide) (by decide)

/-- C5 counterexample: after resends at times 0, 10 and 20 the fourth
attempt at time 30 is throttled; over an hour later (time 4000, with no
resend in between) one resend is admitted — but the very next attempt of
that new window, at time 4010, is rejected again.  The code therefore does
not allow "up to 3 resends in the new window": the count never resets, so
only a single resend is permitted per subsequent hour. -/
theorem resend_window_reset_cex :
    (resend_code a3 30 4 true 1).2 = ResendOutcome.tooManyResends ∧
    (resend_code a3 4000 5 true 1).2 = ResendOutcome.sent true ∧
    (resend_code (resend_code a3 4000 5 true 1).1 4010 6 true 1).2 =
      ResendOutcome.tooManyResends :=
  ⟨rfl, rfl, rfl⟩

/-- C5 amended: the throttle admits at most 3 resends before it engages,
but the count never decays.  Once the count has reached 3, a resend is
admitted exactly when the last one is at least an hour old, and each such
admission re-arms the throttle: the refreshed entry carries count + 1, so
the next attempt within an hour of it is rejected — after an hour of
silence only one resend is allowed per subsequent hour, not three. -/
theorem resend_count_never_resets (a : AppState) (pid : Nat)
    (pending : PendingUser) (last count now now2 codeNum codeNum2 : Nat)
    (ok ok2 : Bool)
    (hp : getPendingUser a.store pid = some pending)
    (hr : lookupResend a.recent_resends (resendKey pending.id) =
      some (last, count))
    (hc : 3 ≤ count) (hgap : 3600 ≤ now - last) (hn : now2 - now < 3600) :
    (resend_code a now codeNum ok pid).2 = ResendOutcome.sent ok ∧
    lookupResend (resend_code a now codeNum ok pid).1.recent_resends
        (resendKey pending.id) = some (now, count + 1) ∧
    (resend_code (resend_code a now codeNum ok pid).1 now2 codeNum2 ok2
        pid).2 = ResendOutcome.tooManyResends := by
  have hlt : ¬ (now - last < 3600) := by omega
  have hstep : resend_code a now codeNum ok pid =
      ({ store := (create_verification_code a.store now codeNum pending.id).1
         recent_resends :=
           setResend a.recent_resends (resendKey pending.id) (now, count + 1) },
       ResendOutcome.sent ok) := by
    unfold resend_code
    rw [hp]
    simp only [hr]
    rw [if_neg (by simp [hlt])]
  refine ⟨by rw [hstep], ?_, ?_⟩
  · rw [hstep]
    exact lookupResend_setResend _ _ _
  · rw [hstep]
    unfold resend_code
    rw [show getPendingUser
          (create_verification_code a.store now codeNum pending.id).1 pid =
          getPendingUser a.store pid from rfl, hp]
    simp only [lookupResend_setResend]
    rw [if_pos (by simp [hn]; omega)]

/-- Witness for the amended C5 theorem: three resends at time 0, one resend
admitted at time 3600, and the next attempt at time 3610 already rejected. -/
theorem resend_count_never_resets_witness :
    (resend_code aThrottled 3600 7 true 1).2 = ResendOutcome.sent true ∧
    lookupResend (resend_code aThrottled 3600 7 true 1).1.recent_resends
        (resendKey aliceP.id) = some (3600, 3 + 1) ∧
    (resend_code (resend_code aThrottled 3600 7 true 1).1 3610 8 false 1).2 =
      ResendOutcome.tooManyResends :=
  resend_count_never_resets aThrottled 1 aliceP 0 3 3600 3610 7 8 true false
    rfl rfl (by decide) (by decide) (by decide)

/-- Shared helper: once the pending row and its most recent verification row
are known, `verify_pending_user` is the chain of guards of the source,
written as one conditional expression. -/
theorem verify_eval (st : Store) (now pid : Nat) (code : String)
    (pending : PendingUser) (v : EmailVerification)
    (hp : getPendingUser st pid = some pending)
    (hv : latestVerification st pending.id = some v) :
    verify_pending_user st now pid code =
      if v.is_expired now then (st, none, "Verification code expired")
      else if 5 ≤ v.attempts then (st, none, "Too many attempts")
      else if v.code ≠ code then
        (updateVerification st { v with attempts := v.attempts + 1 }, none,
          "Invalid verification code")
      else if st.users.any (fun u => u.email = pending.email)
           || st.users.any (fun u => u.username = pending.username) then
        (setStatus (deleteVerification st v.id) pending.id "expired", none,
          "User already exists")
      else
        (deletePendingCascade
          (deleteVerification
            { st with users := st.users ++ [pending.to_user (freshUserId st)] }
            v.id)
          pending.id,
         some (pending.to_user (freshUserId st)), "Success") := by
  unfold verify_pending_user
  rw [hp]
  simp only [hv]
  rfl

/-- C3: a non-expired code whose attempts counter has reached 5 makes any
submission — the correct code included — fail with the too-many-attempts
message while mutating nothing; and while the counter is below 5, a wrong
submission increments it by exactly 1 (and nothing else changes). -/
theorem attempts_limit_is_terminal (st : Store) (now pid : Nat)
    (code : String) (pending : PendingUser) (v : EmailVerification)
    (hp : getPendingUser st pid = some pending)
    (hv : latestVerification st pending.id = some v)
    (hexp : v.is_expired now = false) :
    (5 ≤ v.attempts →
      verify_pending_user st now pid code = (st, none, "Too many attempts")) ∧
    (v.attempts < 5 → v.code ≠ code →
      verify_pending_user st now pid code =
        (updateVerification st { v with attempts := v.attempts + 1 }, none,
          "Invalid verification code")) := by
  rw [verify_eval st now pid code pending v hp hv]
  constructor
  · intro hatt
    rw [if_neg (by simp [hexp]), if_pos hatt]
  · intro hatt hcode
    rw [if_neg (by simp [hexp]), if_neg (by omega), if_pos hcode]

/-- Witness for C3 at the concrete exhausted-attempts store. -/
theorem attempts_limit_is_terminal_witness :
    (5 ≤ aliceV5.attempts →
      verify_pending_user aliceStore5 100 1 "123456" =
        (aliceStore5, none, "Too many attempts")) ∧
    (aliceV5.attempts < 5 → aliceV5.code ≠ "123456" →
      verify_pending_user aliceStore5 100 1 "123456" =
        (updateVerification aliceStore5
          { aliceV5 with attempts := aliceV5.attempts + 1 }, none,
          "Invalid verification code")) :=
  attempts_limit_is_terminal aliceStore5 100 1 "123456" aliceP aliceV5
    rfl rfl rfl

/-- C1: with a live, matching code, no prior failure gate and no conflicting
account, `verify_pending_user` returns `"Success"` together with the account
built by `to_user` (hence `is_verified = true`), appends exactly that one
account to the users table, and leaves no pending row and no verification
row for the pending id. -/
theorem check_code_success_promotes (st : Store) (now pid : Nat)
    (code : String) (pending : PendingUser) (v : EmailVerification)
    (hp : getPendingUser st pid = some pending)
    (hv : latestVerification st pending.id = some v)
    (hexp : v.is_expired now = false)
    (hatt : v.attempts < 5)
    (hcode : v.code = code)
    (hem : st.users.any (fun u => u.email = pending.email) = false)
    (hun : st.users.any (fun u => u.username = pending.username) = false) :
    (verify_pending_user st now pid code).2 =
      (some (pending.to_user (freshUserId st)), "Success") ∧
    (pending.to_user (freshUserId st)).is_verified = true ∧
    (verify_pending_user st now pid code).1.users =
      st.users ++ [pending.to_user (freshUserId st)] ∧
    (verify_pending_user st now pid code).1.pending_users.filter
      (fun p => p.id = pid) = [] ∧
    (verify_pending_user st now pid code).1.verifications.filter
      (fun w => w.pending_user_id = some pid) = [] := by
  have hid : pending.id = pid := getPendingUser_id hp
  rw [verify_eval st now pid code pending v hp hv,
    if_neg (by simp [hexp]), if_neg (by omega), if_neg (by simp [hcode]),
    if_neg (by simp [hem, hun])]
  refine ⟨rfl, rfl, rfl, ?_, ?_⟩
  · rw [← hid]
    exact filter_ne_eq_nil (fun p : PendingUser => p.id) pending.id _
  · rw [← hid]
    exact filter_ne_eq_nil (fun w : EmailVerification => w.pending_user_id)
      (some pending.id) _

/-- Witness for C1 at the concrete one-signup store. -/
theorem check_code_success_promotes_witness :
    (verify_pending_user aliceStore 100 1 "123456").2 =
      (some (aliceP.to_user (freshUserId aliceStore)), "Success") ∧
    (aliceP.to_user (freshUserId aliceStore)).is_verified = true ∧
    (verify_pending_user aliceStore 100 1 "123456").1.users =
      aliceStore.users ++ [aliceP.to_user (freshUserId aliceStore)] ∧
    (verify_pending_user aliceStore 100 1 "123456").1.pending_users.filter
      (fun p => p.id = 1) = [] ∧
    (verify_pending_user aliceStore 100 1 "123456").1.verifications.filter
      (fun w => w.pending_user_id = some 1) = [] :=
  check_code_success_promotes aliceStore 100 1 "123456" aliceP aliceV
    rfl rfl rfl (by decide) rfl rfl rfl

/-- C8: with a live, matching code but a conflicting account, the code row
is deleted, the pending row stays in place with its status rewritten to
`"expired"`, no account is created, and the message is the already-exists
one. -/
theorem check_code_conflict_marks_expired (st : Store) (now pid : Nat)
    (code : String) (pending : PendingUser) (v : EmailVerification)
    (hp : getPendingUser st pid = some pending)
    (hv : latestVerification st pending.id = some v)
    (hexp : v.is_expired now = false)
    (hatt : v.attempts < 5)
    (hcode : v.code = code)
    (hconf : (st.users.any (fun u => u.email = pending.email)
      || st.users.any (fun u => u.username = pending.username)) = true) :
    verify_pending_user st now pid code =
      (setStatus (deleteVerification st v.id) pending.id "expired", none,
        "User already exists") ∧
    (verify_pending_user st now pid code).1.users = st.users ∧
    getPendingUser (verify_pending_user st now pid code).1 pid =
      some { pending with status := "expired" } ∧
    (verify_pending_user st now pid code).1.verifications =
      st.verifications.filter (fun w => w.id ≠ v.id) := by
  have hid : pending.id = pid := getPendingUser_id hp
  have hmain : verify_pending_user st now pid code =
      (setStatus (deleteVerification st v.id) pending.id "expired", none,
        "User already exists") := by
    rw [verify_eval st now pid code pending v hp hv,
      if_neg (by simp [hexp]), if_neg (by omega), if_neg (by simp [hcode]),
      if_pos hconf]
  refine ⟨hmain, by rw [hmain]; rfl, ?_, by rw [hmain]; rfl⟩
  rw [hmain]
  show getPendingUser (setStatus (deleteVerification st v.id) pending.id
    "expired") pid = some { pending with status := "expired" }
  rw [getPendingUser_setStatus,
    show getPendingUser (deleteVerification st v.id) pid =
      getPendingUser st pid from rfl, hp]
  simp [updStatus]

/-- Witness for C8 at the concrete conflicting store. -/
theorem check_code_conflict_marks_expired_witness :
    verify_pending_user aliceConflictStore 100 1 "123456" =
      (setStatus (deleteVerification aliceConflictStore aliceV.id)
        aliceP.id "expired", none, "User already exists") ∧
    (verify_pending_user aliceConflictStore 100 1 "123456").1.users =
      aliceConflictStore.users ∧
    getPendingUser (verify_pending_user aliceConflictStore 100 1 "123456").1
        1 = some { aliceP with status := "expired" } ∧
    (verify_pending_user aliceConflictStore 100 1 "123456").1.verifications =
      aliceConflictStore.verifications.filter (fun w => w.id ≠ aliceV.id) :=
  check_code_conflict_marks_expired aliceConflictStore 100 1 "123456"
    aliceP aliceV rfl rfl rfl (by decide) rfl rfl

/-- C2: given the pending row and its stored code, a submission is accepted
(the run ends in the success or the already-exists branch, i.e. the code
itself passed) exactly when it equals the stored code textually, the
attempts counter is below 5 and `now ≤ expires_at`; and whenever
`expires_at < now` the run reports the expired message regardless of the
submitted string. -/
theorem code_accepted_iff (st : Store) (now pid : Nat) (code : String)
    (pending : PendingUser) (v : EmailVerification)
    (hp : getPendingUser st pid = some pending)
    (hv : latestVerification st pending.id = some v) :
    (((verify_pending_user st now pid code).2.2 = "Success" ∨
      (verify_pending_user st now pid code).2.2 = "User already exists") ↔
      (code = v.code ∧ v.attempts < 5 ∧ now ≤ v.expires_at)) ∧
    (v.expires_at < now →
      (verify_pending_user st now pid code).2.2 =
        "Verification code expired") := by
  rw [verify_eval st now pid code pending v hp hv]
  by_cases hexp : v.expires_at < now
  · rw [if_pos (by simp [EmailVerification.is_expired, hexp])]
    refine ⟨?_, fun _ => rfl⟩
    constructor
    · rintro (h | h) <;> simp at h
    · rintro ⟨-, -, hle⟩
      omega
  · rw [if_neg (by simp [EmailVerification.is_expired]; omega)]
    refine ⟨?_, fun h => absurd h hexp⟩
    by_cases hatt : 5 ≤ v.attempts
    · rw [if_pos hatt]
      constructor
      · rintro (h | h) <;> simp at h
      · rintro ⟨-, h5, -⟩
        omega
    · rw [if_neg hatt]
      by_cases hcode : v.code = code
      · rw [if_neg (by simp [hcode])]
        by_cases hconf : (st.users.any (fun u => u.email = pending.email)
            || st.users.any (fun u => u.username = pending.username)) = true
        · rw [if_pos hconf]
          exact iff_of_true (Or.inr rfl) ⟨hcode.symm, by omega, by omega⟩
        · rw [if_neg hconf]
          exact iff_of_true (Or.inl rfl) ⟨hcode.symm, by omega, by omega⟩
      · rw [if_pos hcode]
        refine iff_of_false ?_ ?_
        · rintro (h | h) <;> simp at h
        · rintro ⟨h1, -, -⟩
          exact hcode h1.symm

/-- Witness for C2 at the concrete one-signup store, checked at a time
inside the code's validity window. -/
theorem code_accepted_iff_witness :
    (((verify_pending_user aliceStore 100 1 "123456").2.2 = "Success" ∨
      (verify_pending_user aliceStore 100 1 "123456").2.2 =
        "User already exists") ↔
      ("123456" = aliceV.code ∧ aliceV.attempts < 5 ∧
        100 ≤ aliceV.expires_at)) ∧
    (aliceV.expires_at < 100 →
      (verify_pending_user aliceStore 100 1 "123456").2.2 =
        "Verification code expired") :=
  code_accepted_iff aliceStore 100 1 "123456" aliceP aliceV rfl rfl

/-- The status rewrite leaves a row's email unchanged. -/
theorem updStatus_email (pid : Nat) (s : String) (p : PendingUser) :
    (updStatus pid s p).email = p.email := by
  unfold updStatus
  split <;> rfl

/-- The status rewrite leaves a row's username unchanged. -/
theorem updStatus_username (pid : Nat) (s : String) (p : PendingUser) :
    (updStatus pid s p).username = p.username := by
  unfold updStatus
  split <;> rfl

/-- `to_user` reads no status, so the status rewrite is invisible to it. -/
theorem updStatus_to_user (pid : Nat) (s : String) (p : PendingUser)
    (n : Nat) : (updStatus pid s p).to_user n = p.to_user n := by
  unfold updStatus PendingUser.to_user
  split <;> rfl

/-- The status rewrite leaves the users table alone. -/
theorem setStatus_users (st : Store) (pid : Nat) (s : String) :
    (setStatus st pid s).users = st.users := rfl

/-- The status rewrite leaves the verifications table alone. -/
theorem setStatus_verifications (st : Store) (pid : Nat) (s : String) :
    (setStatus st pid s).verifications = st.verifications := rfl

/-- Fresh user ids only look at the users table. -/
theorem freshUserId_setStatus (st : Store) (pid : Nat) (s : String) :
    freshUserId (setStatus st pid s) = freshUserId st := rfl

/-- C10: the outcome and the state changes of both `verify_pending_user` and
the resend route are independent of the pending row's `status` column: on
two stores identical except for one pending row's status (for example
`"pending"` against `"expired"`), the same submission yields the same
returned value, the same users table, the same verification rows and the
same throttle state — so a pending registration already marked `"expired"`
is still issued fresh codes and is still promoted on a matching code. -/
theorem status_field_noninterference (st : Store) (a : AppState) (pid : Nat)
    (s : String) (now codeNum : Nat) (code : String) (ok : Bool) :
    ((verify_pending_user (setStatus st pid s) now pid code).1.users =
        (verify_pending_user st now pid code).1.users ∧
      (verify_pending_user (setStatus st pid s) now pid code).1.verifications =
        (verify_pending_user st now pid code).1.verifications ∧
      (verify_pending_user (setStatus st pid s) now pid code).2 =
        (verify_pending_user st now pid code).2) ∧
    ((resend_code (setStatusA a pid s) now codeNum ok pid).1.store.users =
        (resend_code a now codeNum ok pid).1.store.users ∧
      (resend_code (setStatusA a pid s) now codeNum ok
        pid).1.store.verifications =
        (resend_code a now codeNum ok pid).1.store.verifications ∧
      (resend_code (setStatusA a pid s) now codeNum ok pid).1.recent_resends =
        (resend_code a now codeNum ok pid).1.recent_resends ∧
      (resend_code (setStatusA a pid s) now codeNum ok pid).2 =
        (resend_code a now codeNum ok pid).2) := by
  constructor
  · cases hgp : getPendingUser st pid with
    | none =>
      have hgp' : getPendingUser (setStatus st pid s) pid = none := by
        rw [getPendingUser_setStatus, hgp]
        rfl
      unfold verify_pending_user
      rw [hgp, hgp']
      exact ⟨rfl, rfl, rfl⟩
    | some pending =>
      have hgp' : getPendingUser (setStatus st pid s) pid =
          some (updStatus pid s pending) := by
        rw [getPendingUser_setStatus, hgp]
        rfl
      cases hlv : latestVerification st pending.id with
      | none =>
        have hlv' : latestVerification (setStatus st pid s)
            (updStatus pid s pending).id = none := by
          rw [updStatus_id]
          exact hlv
        have h1 : verify_pending_user st now pid code =
            (st, none, "Verification code expired") := by
          unfold verify_pending_user
          rw [hgp]
          simp only [hlv]
        have h2 : verify_pending_user (setStatus st pid s) now pid code =
            (setStatus st pid s, none, "Verification code expired") := by
          unfold verify_pending_user
          rw [hgp']
          simp only [hlv']
        rw [h1, h2]
        exact ⟨rfl, rfl, rfl⟩
      | some v =>
        have hlv' : latestVerification (setStatus st pid s)
            (updStatus pid s pending).id = some v := by
          rw [updStatus_id]
          exact hlv
        rw [verify_eval st now pid code pending v hgp hlv,
          verify_eval (setStatus st pid s) now pid code
            (updStatus pid s pending) v hgp' hlv']
        simp only [updStatus_email, updStatus_username, updStatus_id,
          updStatus_to_user, setStatus_users, setStatus_verifications,
          freshUserId_setStatus]
        split_ifs <;> exact ⟨rfl, rfl, rfl⟩
  · have hst : (setStatusA a pid s).store = setStatus a.store pid s := rfl
    have hrr : (setStatusA a pid s).recent_resends = a.recent_resends := rfl
    cases hgp : getPendingUser a.store pid with
    | none =>
      have hgp' : getPendingUser (setStatusA a pid s).store pid = none := by
        rw [hst, getPendingUser_setStatus, hgp]
        rfl
      unfold resend_code
      rw [hgp, hgp']
      exact ⟨rfl, rfl, rfl, rfl⟩
    | some pending =>
      have hgp' : getPendingUser (setStatusA a pid s).store pid =
          some (updStatus pid s pending) := by
        rw [hst, getPendingUser_setStatus, hgp]
        rfl
      unfold resend_code
      rw [hgp, hgp']
      simp only [updStatus_id, hrr, hst]
      cases hlr : lookupResend a.recent_resends (resendKey pending.id) with
      | none =>
        simp only [hlr, true_and, and_true]
        exact ⟨rfl, rfl⟩
      | some e =>
        cases e with
        | mk last count =>
          simp only [hlr, true_and, and_true]
          split_ifs <;> and_intros <;> rfl

end SwapSavvy
